import Mathlib

/-!
# Verification of the slapstick-enhancer prompt pipeline

A shallow embedding of `slapstick_ologs.py` and `slapstick_enhancer_mcp.py`.

Python integers are modelled as `ℤ`.  The intensity multipliers (Python
floats 0.3, 0.6, 0.85, 1.0) are modelled as the exact fractions 3/10,
3/5, 17/20, 1/1: for every preset field value (the shipped presets use
the integers 4–9, and in fact for every integer 0–10) the IEEE-double
product `value * multiplier` rounds, under Python's `round`, to the same
integer as the exact fraction does under round-half-to-even (the only
exact tie is 5 × 0.3 = 1.5, which is also exactly 1.5 as a double and
which both send to 2), so the exact-fraction model is outcome-faithful.
Python `round` (round-half-to-even) is modelled by `pyRound`.

Fallible tool entry points return a `ToolOutcome`: a structured success
value, a returned error dictionary (the `{"error": ...}` responses), or an
uncaught Python exception escaping the function.
-/

/-! ## Layer 1: taxonomy (`slapstick_ologs.py`, enums) -/

/-- `class SubjectType(str, Enum)`: seven subject categories. -/
inductive SubjectType where
  | architecture | portrait | still_life | landscape | abstract | product | scene
deriving DecidableEq, Repr, Fintype

/-- `class EmotionalTone(str, Enum)`: nine emotional tones. -/
inductive EmotionalTone where
  | playful | tense | absurd | whimsical | surreal | dramatic | chaotic | elegant | ominous
deriving DecidableEq, Repr, Fintype

/-- `class VisualPriority(str, Enum)`: ten visual priorities. -/
inductive VisualPriority where
  | scale | physics | repetition | clarity | suspense | rhythm | distortion | balance | flow | impact
deriving DecidableEq, Repr, Fintype

/-- `class IntensityLevel(str, Enum)`: four intensity levels. -/
inductive IntensityLevel where
  | subtle | moderate | strong | extreme
deriving DecidableEq, Repr, Fintype

/-- The six core slapstick parameter names (`class SlapstickParameter`,
also the keys of the working `params` dict in
`design_intent_to_parameters`). -/
inductive ParamName where
  | exaggeration | timing | physical | ruleOfThree | readability | tension
deriving DecidableEq, Repr, Fintype

/-! ## Layer 2: profile structures -/

/-- `@dataclass SlapstickParameterSet`: six integer parameter values. -/
structure SlapstickParameterSet where
  exaggeration : ℤ
  timing : ℤ
  physical : ℤ
  ruleOfThree : ℤ
  readability : ℤ
  tension : ℤ
deriving DecidableEq, Repr

/-- Field projection by parameter name (the Python code accesses the
dataclass fields / `params` dict entries by these six names). -/
def SlapstickParameterSet.get (p : SlapstickParameterSet) : ParamName → ℤ
  | .exaggeration => p.exaggeration
  | .timing => p.timing
  | .physical => p.physical
  | .ruleOfThree => p.ruleOfThree
  | .readability => p.readability
  | .tension => p.tension

/-- `SlapstickParameterSet.validate`: every field lies in `0 ≤ v ≤ 10`. -/
def SlapstickParameterSet.validate (p : SlapstickParameterSet) : Bool :=
  [p.exaggeration, p.timing, p.physical, p.ruleOfThree, p.readability,
    p.tension].all fun v => decide (0 ≤ v) && decide (v ≤ 10)

/-- `@dataclass DesignIntent`. -/
structure DesignIntent where
  subject_type : SubjectType
  emotional_tone : EmotionalTone
  visual_priorities : List VisualPriority
  intensity_level : IntensityLevel
deriving DecidableEq, Repr

/-- The `[0,10]` bound on all six fields, as a proposition (the property
`validate` decides). -/
def InRange (p : SlapstickParameterSet) : Prop :=
  (0 ≤ p.exaggeration ∧ p.exaggeration ≤ 10) ∧
  (0 ≤ p.timing ∧ p.timing ≤ 10) ∧
  (0 ≤ p.physical ∧ p.physical ≤ 10) ∧
  (0 ≤ p.ruleOfThree ∧ p.ruleOfThree ≤ 10) ∧
  (0 ≤ p.readability ∧ p.readability ≤ 10) ∧
  (0 ≤ p.tension ∧ p.tension ≤ 10)

instance (p : SlapstickParameterSet) : Decidable (InRange p) := by
  unfold InRange; infer_instance

/-! ## Layer 3: olog morphisms (`SlapstickOlogMorphisms`) -/

/-- `SUBJECT_TYPE_PRESETS`: one base vector per subject type. -/
def SUBJECT_TYPE_PRESETS : SubjectType → SlapstickParameterSet
  | .architecture => ⟨7, 4, 6, 7, 6, 8⟩
  | .portrait => ⟨6, 5, 4, 5, 8, 4⟩
  | .still_life => ⟨8, 6, 7, 8, 7, 6⟩
  | .landscape => ⟨7, 7, 8, 6, 5, 7⟩
  | .abstract => ⟨9, 8, 9, 7, 4, 8⟩
  | .product => ⟨8, 5, 6, 7, 9, 5⟩
  | .scene => ⟨6, 7, 7, 6, 6, 7⟩

/-- `INTENSITY_MULTIPLIERS`: Python floats 0.3 / 0.6 / 0.85 / 1.0,
modelled as the exact fractions 3/10, 3/5, 17/20, 1/1 (numerator,
positive denominator; see the file header for why this is
outcome-faithful). -/
def INTENSITY_MULTIPLIERS : IntensityLevel → ℤ × ℤ
  | .subtle => (3, 10)
  | .moderate => (3, 5)
  | .strong => (17, 20)
  | .extreme => (1, 1)

/-- `EMOTIONAL_TONE_MODIFIERS`: sparse per-parameter deltas.  Each tone's
Python dict has pairwise-distinct keys and each loop iteration updates only
its own key, so the dict is faithfully a partial map from parameter name to
delta. -/
def EMOTIONAL_TONE_MODIFIERS : EmotionalTone → ParamName → Option ℤ
  | .playful, .timing => some 2
  | .playful, .physical => some 2
  | .playful, .ruleOfThree => some 1
  | .tense, .tension => some 3
  | .tense, .physical => some (-1)
  | .tense, .readability => some 1
  | .absurd, .exaggeration => some 3
  | .absurd, .physical => some 2
  | .absurd, .readability => some (-2)
  | .whimsical, .timing => some 2
  | .whimsical, .ruleOfThree => some 2
  | .whimsical, .exaggeration => some 1
  | .surreal, .exaggeration => some 3
  | .surreal, .physical => some 3
  | .surreal, .readability => some (-1)
  | .dramatic, .tension => some 3
  | .dramatic, .readability => some 2
  | .dramatic, .timing => some 1
  | .chaotic, .exaggeration => some 2
  | .chaotic, .physical => some 3
  | .chaotic, .timing => some 2
  | .chaotic, .readability => some (-2)
  | .elegant, .readability => some 3
  | .elegant, .ruleOfThree => some 2
  | .elegant, .timing => some 1
  | .elegant, .physical => some (-1)
  | .ominous, .tension => some 4
  | .ominous, .timing => some (-1)
  | .ominous, .readability => some 1
  | _, _ => none

/-- `VISUAL_PRIORITY_BOOSTS`: target parameter of each priority.  Every
priority is a key of the Python dict, so the lookup is total and the
`if target_param and target_param in params` guard always holds. -/
def VISUAL_PRIORITY_BOOSTS : VisualPriority → ParamName
  | .scale => .exaggeration
  | .physics => .physical
  | .repetition => .ruleOfThree
  | .clarity => .readability
  | .suspense => .tension
  | .rhythm => .timing
  | .distortion => .exaggeration
  | .balance => .tension
  | .flow => .timing
  | .impact => .physical

/-- Python `round` applied to the exact rational `a / den` (`den > 0`):
round to the nearest integer, ties to the nearest even integer.  `ediv` /
`emod` give the floor and the remainder `r ∈ [0, den)`, so the fractional
part is `r / den` and the tie case is `2 * r = den`. -/
def pyRound (a den : ℤ) : ℤ :=
  let f := a.ediv den
  let r := a.emod den
  if 2 * r < den then f
  else if den < 2 * r then f + 1
  else if f % 2 = 0 then f else f + 1

/-- `max(0, min(10, v))`, the clamp used throughout both files. -/
def clamp10 (v : ℤ) : ℤ := max 0 (min 10 v)

/-- Step 1–2 of `design_intent_to_parameters`: preset lookup and
intensity scaling (`round(subject_params.<field> * multiplier)` for each
of the six dict entries). -/
def scaledParams (s : SubjectType) (i : IntensityLevel) : ParamName → ℤ :=
  fun n => pyRound ((SUBJECT_TYPE_PRESETS s).get n * (INTENSITY_MULTIPLIERS i).1)
    (INTENSITY_MULTIPLIERS i).2

/-- Step 3: `params[param_name] = max(0, min(10, params[param_name] + delta))`
for each entry of the tone's modifier dict; unmentioned parameters are
untouched. -/
def applyToneModifiers (t : EmotionalTone) (ps : ParamName → ℤ) : ParamName → ℤ :=
  fun n =>
    match EMOTIONAL_TONE_MODIFIERS t n with
    | some d => max 0 (min 10 (ps n + d))
    | none => ps n

/-- One iteration of step 4:
`params[target_param] = min(10, params[target_param] + 2)`. -/
def applyPriorityBoost (ps : ParamName → ℤ) (p : VisualPriority) : ParamName → ℤ :=
  fun n => if n = VISUAL_PRIORITY_BOOSTS p then min 10 (ps n + 2) else ps n

/-- Step 4: fold the boost over `design_intent.visual_priorities` in
list order. -/
def applyPriorityBoosts (ps : ParamName → ℤ) (l : List VisualPriority) : ParamName → ℤ :=
  l.foldl applyPriorityBoost ps

/-- Step 5: `params[key] = max(0, min(10, round(params[key])))`
(`round` of an integer is the integer). -/
def finalClamp (ps : ParamName → ℤ) : ParamName → ℤ :=
  fun n => clamp10 (ps n)

/-- Rebuild the dataclass from the working dict (the final
`SlapstickParameterSet(...)` constructor call). -/
def mkParameterSet (ps : ParamName → ℤ) : SlapstickParameterSet :=
  ⟨ps .exaggeration, ps .timing, ps .physical, ps .ruleOfThree,
    ps .readability, ps .tension⟩

/-- `SlapstickOlogMorphisms.design_intent_to_parameters`: the full
five-step resolver pipeline.  (The Python `.get` fallbacks to the SCENE
preset and the MODERATE multiplier are dead code here: the enums are
closed, so both lookups always succeed.) -/
def design_intent_to_parameters (d : DesignIntent) : SlapstickParameterSet :=
  mkParameterSet
    (finalClamp
      (applyPriorityBoosts
        (applyToneModifiers d.emotional_tone
          (scaledParams d.subject_type d.intensity_level))
        d.visual_priorities))

/-- `SlapstickOlogMorphisms.validate_parameters`. -/
def validate_parameters (p : SlapstickParameterSet) : Bool := p.validate

/-- Round the exact rational `a / den` (`den > 0`) half away from zero
(the alternative tie rule named by the spec): for `x ≥ 0` this is
`⌊x + 1/2⌋`, mirrored for `x < 0`. -/
def roundHalfAwayFromZero (a den : ℤ) : ℤ :=
  if 0 ≤ a then (2 * a + den).ediv (2 * den)
  else -((2 * (-a) + den).ediv (2 * den))

/-- Variant of the scaling step using round-half-away-from-zero. -/
def scaledParamsAway (s : SubjectType) (i : IntensityLevel) : ParamName → ℤ :=
  fun n => roundHalfAwayFromZero
    ((SUBJECT_TYPE_PRESETS s).get n * (INTENSITY_MULTIPLIERS i).1)
    (INTENSITY_MULTIPLIERS i).2

/-- The resolver with the scaling step's tie rule replaced by
round-half-away-from-zero; used to show the tie rule never changes an
output. -/
def design_intent_to_parameters_away (d : DesignIntent) : SlapstickParameterSet :=
  mkParameterSet
    (finalClamp
      (applyPriorityBoosts
        (applyToneModifiers d.emotional_tone
          (scaledParamsAway d.subject_type d.intensity_level))
        d.visual_priorities))

/-! ## Prompt templates (`slapstick_enhancer_mcp.py`, `SlapstickPromptTemplates`) -/

/-- `EXAGGERATION_TEMPLATES`, listed in the order produced by
`sorted(templates.items(), reverse=True)` on the `(min, max)` keys. -/
def EXAGGERATION_TEMPLATES : List ((ℤ × ℤ) × String) :=
  [((9, 10), "extreme distortions with impossible scales showing 3-5x size variations, surreal color intensity, warped perspective that shouldn\x27t work but does"),
   ((6, 8), "obvious proportion exaggerations, oversaturated colors and heightened contrast, forced perspective"),
   ((3, 5), "subtle scale variations and slightly heightened color saturation"),
   ((0, 2), "realistic proportions and natural color")]

/-- `TIMING_TEMPLATES` in descending key order. -/
def TIMING_TEMPLATES : List ((ℤ × ℤ) × String) :=
  [((9, 10), "staccato visual interruptions, dramatic motion blur on static objects, speed lines suggesting imminent action"),
   ((6, 8), "strong rhythmic composition with repeating elements, anticipation spaces and visual pauses between key elements"),
   ((3, 5), "gentle repetition of visual elements creating compositional rhythm"),
   ((0, 2), "static composition without temporal elements")]

/-- `PHYSICAL_TEMPLATES` in descending key order. -/
def PHYSICAL_TEMPLATES : List ((ℤ × ℤ) × String) :=
  [((9, 10), "extreme elasticity and squash-stretch distortion, mid-collision freeze-frame moment, materials stretched or compressed cartoonishly, complete defiance of physics"),
   ((6, 8), "squash and stretch principles applied to forms, gravity-defying elements, objects mid-fall or impossibly suspended"),
   ((3, 5), "subtle material flexibility, slight impossibilities in physics"),
   ((0, 2), "realistic physics and rigid materials")]

/-- `RULE_OF_THREE_TEMPLATES` in descending key order. -/
def RULE_OF_THREE_TEMPLATES : List ((ℤ × ℤ) × String) :=
  [((9, 10), "complex establish-repeat-subvert patterns, three-part visual jokes in composition, triple visual callbacks, all using rule of thirds positioning"),
   ((6, 8), "clear triplet groupings, establish one element then systematically repeat-with-variation twice more, visual pattern of three"),
   ((3, 5), "subtle hints of grouping in threes, occasional triplet arrangement"),
   ((0, 2), "no emphasis on triplet groupings")]

/-- `READABILITY_TEMPLATES` in descending key order. -/
def READABILITY_TEMPLATES : List ((ℤ × ℤ) × String) :=
  [((9, 10), "crystal clear graphic simplification and silhouette clarity, high contrast separating subject from background, visual clarity even from distance"),
   ((6, 8), "strong silhouette clarity and graphic simplification, clear contrast between subject and environment"),
   ((3, 5), "subtle graphic emphasis with readable forms"),
   ((0, 2), "complex visual details without simplification")]

/-- `TENSION_TEMPLATES` in descending key order. -/
def TENSION_TEMPLATES : List ((ℤ × ℤ) × String) :=
  [((9, 10), "extreme precarious balance suggesting imminent collapse, maximum suspense and about-to-happen energy, frozen moment of chaos"),
   ((6, 8), "strong suspenseful moment with clear tension, objects at unstable angles, sense of impending action"),
   ((3, 5), "subtle underlying tension and unease"),
   ((0, 2), "peaceful balanced composition")]

/-! `NEGATIVE_PROMPT_COMPONENTS`: the six values of the string-keyed dict. -/

namespace NEGATIVE_PROMPT_COMPONENTS

def high_exaggeration : String := "realistic proportions, natural colors, subtle"

def high_timing : String := "static composition, no motion, no rhythm"

def high_physical : String := "realistic physics, rigid materials, no distortion"

def high_rule_of_three : String := "no pattern, no rhythm, random composition"

def low_readability : String := "cluttered, confusing, unclear silhouette"

def high_tension : String := "peaceful, calm, balanced, serene"

end NEGATIVE_PROMPT_COMPONENTS

/-- `SlapstickPromptTemplates.get_template`: scan the (already
descending-sorted) buckets, return the text of the first bucket whose
`[min, max]` range contains the value, or `""` if none does. -/
def get_template (param_value : ℤ) (templates : List ((ℤ × ℤ) × String)) : String :=
  match templates.find? (fun t => decide (t.1.1 ≤ param_value ∧ param_value ≤ t.1.2)) with
  | some t => t.2
  | none => ""

/-- `SlapstickPromptTemplates.build_enhanced_prompt`: collect the six
fragments in fixed order, keep the non-empty ones (Python string
truthiness), and append them to the base prompt; an empty fragment list
returns the base prompt unchanged. -/
def build_enhanced_prompt (base_prompt : String) (params : SlapstickParameterSet) : String :=
  let additions := List.filter (fun s => s != "")
    [get_template params.exaggeration EXAGGERATION_TEMPLATES,
     get_template params.timing TIMING_TEMPLATES,
     get_template params.physical PHYSICAL_TEMPLATES,
     get_template params.ruleOfThree RULE_OF_THREE_TEMPLATES,
     get_template params.readability READABILITY_TEMPLATES,
     get_template params.tension TENSION_TEMPLATES]
  if additions.isEmpty then base_prompt
  else base_prompt ++ ", " ++ String.intercalate ", " additions

/-- The `negatives` list of `build_negative_prompt`: one conditional
term per gate, in the order the gates are checked. -/
def negative_components (params : SlapstickParameterSet) : List String :=
  (if 6 ≤ params.exaggeration then [NEGATIVE_PROMPT_COMPONENTS.high_exaggeration] else []) ++
  (if 6 ≤ params.timing then [NEGATIVE_PROMPT_COMPONENTS.high_timing] else []) ++
  (if 6 ≤ params.physical then [NEGATIVE_PROMPT_COMPONENTS.high_physical] else []) ++
  (if 6 ≤ params.ruleOfThree then [NEGATIVE_PROMPT_COMPONENTS.high_rule_of_three] else []) ++
  (if 8 ≤ params.readability then [NEGATIVE_PROMPT_COMPONENTS.low_readability] else []) ++
  (if 6 ≤ params.tension then [NEGATIVE_PROMPT_COMPONENTS.high_tension] else [])

/-- The `base_negatives` literal. -/
def base_negatives : List String := ["blurry", "low quality", "distorted", "ugly"]

/-- `SlapstickPromptTemplates.build_negative_prompt`:
`", ".join(base_negatives + negatives) if negatives else ", ".join(base_negatives)`. -/
def build_negative_prompt (params : SlapstickParameterSet) : String :=
  let negatives := negative_components params
  if negatives.isEmpty then String.intercalate ", " base_negatives
  else String.intercalate ", " (base_negatives ++ negatives)

/-- `SlapstickOlogMorphisms.parameters_to_enhancement_description`: the
per-parameter if/elif chains (thresholds 9, 6, 3). -/
def parameters_to_enhancement_description
    (params : SlapstickParameterSet) : ParamName → String
  | .exaggeration =>
      if 9 ≤ params.exaggeration then "extreme distortions with impossible scales"
      else if 6 ≤ params.exaggeration then "obvious proportion exaggerations"
      else if 3 ≤ params.exaggeration then "subtle scale variations"
      else "minimal exaggeration"
  | .timing =>
      if 9 ≤ params.timing then "staccato visual interruptions"
      else if 6 ≤ params.timing then "strong rhythmic composition"
      else if 3 ≤ params.timing then "gentle repetition"
      else "static composition"
  | .physical =>
      if 9 ≤ params.physical then "extreme elasticity and squash-stretch"
      else if 6 ≤ params.physical then "squash and stretch principles"
      else if 3 ≤ params.physical then "subtle material flexibility"
      else "realistic physics"
  | .ruleOfThree =>
      if 9 ≤ params.ruleOfThree then "complex triplet patterns"
      else if 6 ≤ params.ruleOfThree then "clear triplet groupings"
      else if 3 ≤ params.ruleOfThree then "subtle triplet hints"
      else "no triplet emphasis"
  | .readability =>
      if 9 ≤ params.readability then "crystal clear graphic simplification"
      else if 6 ≤ params.readability then "strong silhouette clarity"
      else if 3 ≤ params.readability then "subtle graphic emphasis"
      else "complex visual details"
  | .tension =>
      if 9 ≤ params.tension then "extreme precarious balance"
      else if 6 ≤ params.tension then "strong suspenseful moment"
      else if 3 ≤ params.tension then "subtle tension"
      else "peaceful balance"

/-! ## MCP tool layer (`slapstick_enhancer_mcp.py`) -/

/-- A Python exception escaping a tool function. -/
inductive PyExc where
  | keyError : String → PyExc
  | attributeError : String → PyExc
deriving DecidableEq, Repr

/-- Outcome of a tool call: a success value, a returned
`{"error": msg}` dictionary, or an uncaught exception. -/
inductive ToolOutcome (α : Type) where
  | ok : α → ToolOutcome α
  | errorResp : String → ToolOutcome α
  | raises : PyExc → ToolOutcome α
deriving DecidableEq, Repr

/-- ASCII uppercase of one character (`Char.toUpper`, written out so the
kernel can evaluate it). -/
def upperChar (c : Char) : Char :=
  if c.isLower then Char.ofNat (c.toNat - 32) else c

/-- Python `s.upper()` restricted to ASCII (every enum member name and
every input the claims evaluate is ASCII, where the two agree). -/
def pyUpper (s : String) : String := ⟨s.data.map upperChar⟩

/-- `SubjectType[s.upper()]`: Python `Enum` name lookup on the uppercased
string; a miss raises `KeyError` (modelled as `none` here, turned into the
exception at the call site). -/
def parseSubjectType (s : String) : Option SubjectType :=
  match pyUpper s with
  | "ARCHITECTURE" => some .architecture
  | "PORTRAIT" => some .portrait
  | "STILL_LIFE" => some .still_life
  | "LANDSCAPE" => some .landscape
  | "ABSTRACT" => some .abstract
  | "PRODUCT" => some .product
  | "SCENE" => some .scene
  | _ => none

/-- `EmotionalTone[s.upper()]`. -/
def parseEmotionalTone (s : String) : Option EmotionalTone :=
  match pyUpper s with
  | "PLAYFUL" => some .playful
  | "TENSE" => some .tense
  | "ABSURD" => some .absurd
  | "WHIMSICAL" => some .whimsical
  | "SURREAL" => some .surreal
  | "DRAMATIC" => some .dramatic
  | "CHAOTIC" => some .chaotic
  | "ELEGANT" => some .elegant
  | "OMINOUS" => some .ominous
  | _ => none

/-- `IntensityLevel[s.upper()]`. -/
def parseIntensityLevel (s : String) : Option IntensityLevel :=
  match pyUpper s with
  | "SUBTLE" => some .subtle
  | "MODERATE" => some .moderate
  | "STRONG" => some .strong
  | "EXTREME" => some .extreme
  | _ => none

/-- `VisualPriority[s.upper()]`. -/
def parseVisualPriority (s : String) : Option VisualPriority :=
  match pyUpper s with
  | "SCALE" => some .scale
  | "PHYSICS" => some .physics
  | "REPETITION" => some .repetition
  | "CLARITY" => some .clarity
  | "SUSPENSE" => some .suspense
  | "RHYTHM" => some .rhythm
  | "DISTORTION" => some .distortion
  | "BALANCE" => some .balance
  | "FLOW" => some .flow
  | "IMPACT" => some .impact
  | _ => none

/-- Result of the `for priority_str in visual_priorities` loop: either
every element resolved, or the loop returned the
`Invalid visual priority` error for the first element whose lookup raised
`KeyError` (that inner `except KeyError` is the only enum lookup with a
handler). -/
inductive PriorityParse where
  | resolved : List VisualPriority → PriorityParse
  | invalid : String → PriorityParse
deriving DecidableEq, Repr

/-- The priority-conversion loop of `enhance_with_intent`. -/
def parsePriorities : List String → PriorityParse
  | [] => .resolved []
  | s :: rest =>
    match parseVisualPriority s with
    | none => .invalid s
    | some p =>
      match parsePriorities rest with
      | .resolved ps => .resolved (p :: ps)
      | .invalid bad => .invalid bad

/-- The success dictionary of `enhance_with_intent`. -/
structure EnhanceResult where
  parameters_used : SlapstickParameterSet
  enhanced_prompt : String
  negative_prompt : String
  design_intent_summary : String
deriving DecidableEq, Repr

/-- The success dictionary of `enhance_with_parameters`. -/
structure ParamsResult where
  parameters_used : SlapstickParameterSet
  enhanced_prompt : String
  negative_prompt : String
deriving DecidableEq, Repr

/-- The success dictionary of `describe_parameters`. -/
structure DescribeResult where
  descriptions : ParamName → String
  parameters : SlapstickParameterSet

/-- The `enhance_with_intent` tool.

The surrounding `try` catches only `ValueError`, but `Enum` name lookup on
a missing name raises `KeyError`, so a bad `subject_type`,
`emotional_tone` or `intensity` escapes the function uncaught (only the
`visual_priorities` loop has a `KeyError` handler).

Line 259 of the source builds the summary f-string from
`emotional_tone.value`, where `emotional_tone` is the plain string
argument (the parsed enum member is bound to `emotion`); a `str` has no
`value` attribute, so every execution that reaches the summary raises an
uncaught `AttributeError` — the `ok` constructor is unreachable.  The
enhanced and negative prompts are computed (and discarded) before the
failing line, mirrored here by the two unused bindings. -/
def enhance_with_intent (base_prompt subject_type emotional_tone : String)
    (visual_priorities : List String) (intensity : String) :
    ToolOutcome EnhanceResult :=
  match parseSubjectType subject_type with
  | none => .raises (.keyError (pyUpper subject_type))
  | some subject =>
  match parseEmotionalTone emotional_tone with
  | none => .raises (.keyError (pyUpper emotional_tone))
  | some emotion =>
  match parseIntensityLevel intensity with
  | none => .raises (.keyError (pyUpper intensity))
  | some intensity_level =>
  match parsePriorities visual_priorities with
  | .invalid bad => .errorResp ("Invalid visual priority: " ++ bad)
  | .resolved priorities =>
  match validate_parameters (design_intent_to_parameters
      ⟨subject, emotion, priorities, intensity_level⟩) with
  | false => .errorResp "Invalid parameters generated"
  | true =>
    let params := design_intent_to_parameters
      ⟨subject, emotion, priorities, intensity_level⟩
    let _enhanced_prompt := build_enhanced_prompt base_prompt params
    let _negative_prompt := build_negative_prompt params
    .raises (.attributeError "str object has no attribute value")

/-- The `enhance_with_parameters` tool: clamp each supplied integer with
`max(0, min(10, int(v)))`, re-validate, and render both prompts. -/
def enhance_with_parameters (base_prompt : String)
    (exaggeration timing physical ruleOfThree readability tension : ℤ) :
    ToolOutcome ParamsResult :=
  let params : SlapstickParameterSet :=
    ⟨clamp10 exaggeration, clamp10 timing, clamp10 physical,
      clamp10 ruleOfThree, clamp10 readability, clamp10 tension⟩
  match params.validate with
  | false => .errorResp "Parameters must be between 0 and 10"
  | true =>
    .ok ⟨params, build_enhanced_prompt base_prompt params,
      build_negative_prompt params⟩

/-- The `describe_parameters` tool: clamp each supplied integer, then
return the description map together with the clamped vector (the
`descriptions['parameters'] = params.to_dict()` entry). -/
def describe_parameters
    (exaggeration timing physical ruleOfThree readability tension : ℤ) :
    ToolOutcome DescribeResult :=
  let params : SlapstickParameterSet :=
    ⟨clamp10 exaggeration, clamp10 timing, clamp10 physical,
      clamp10 ruleOfThree, clamp10 readability, clamp10 tension⟩
  .ok ⟨parameters_to_enhancement_description params, params⟩

/-! ## Shared lemmas -/

/-- Clamping with `max(0, min(10, ·))` always lands in `[0,10]`. -/
lemma clampedInRange (a b c d e f : ℤ) :
    InRange ⟨clamp10 a, clamp10 b, clamp10 c, clamp10 d, clamp10 e, clamp10 f⟩ := by
  unfold InRange clamp10
  dsimp only
  omega

/-- `validate` decides exactly the `[0,10]` bound. -/
lemma validate_eq_true_iff (p : SlapstickParameterSet) :
    p.validate = true ↔ InRange p := by
  simp [SlapstickParameterSet.validate, InRange, List.all_cons]

/-- The resolver's final defensive clamp forces every field into
`[0,10]`. -/
lemma design_intent_to_parameters_inRange (d : DesignIntent) :
    InRange (design_intent_to_parameters d) := by
  unfold design_intent_to_parameters mkParameterSet finalClamp
  exact clampedInRange _ _ _ _ _ _

/-- The resolver's output always passes `validate_parameters`. -/
lemma design_intent_to_parameters_validate (d : DesignIntent) :
    validate_parameters (design_intent_to_parameters d) = true :=
  (validate_eq_true_iff _).mpr (design_intent_to_parameters_inRange d)

/-- Projection of `mkParameterSet` recovers the working dict. -/
lemma mkParameterSet_get (f : ParamName → ℤ) (n : ParamName) :
    (mkParameterSet f).get n = f n := by
  cases n <;> rfl

/-! ## Claims -/

/-- C1: for every call to `enhance_with_intent`, `enhance_with_parameters`
and `describe_parameters`, every field of the parameter vector returned in
a success response (`parameters_used` / `parameters`) lies in `[0,10]`;
no construction path lets an out-of-range field out. -/
theorem c1_bound_invariant :
    (∀ bp st et vp it res,
      enhance_with_intent bp st et vp it = ToolOutcome.ok res →
      InRange res.parameters_used) ∧
    (∀ bp e t ph r rd tn res,
      enhance_with_parameters bp e t ph r rd tn = ToolOutcome.ok res →
      InRange res.parameters_used) ∧
    (∀ e t ph r rd tn res,
      describe_parameters e t ph r rd tn = ToolOutcome.ok res →
      InRange res.parameters) := by
  refine ⟨?_, ?_, ?_⟩
  · intro bp st et vp it res h
    unfold enhance_with_intent at h
    repeat' split at h
    all_goals exact ToolOutcome.noConfusion h
  · intro bp e t ph r rd tn res h
    simp only [enhance_with_parameters] at h
    split at h
    · exact ToolOutcome.noConfusion h
    · injection h with h
      subst h
      exact clampedInRange _ _ _ _ _ _
  · intro e t ph r rd tn res h
    simp only [describe_parameters] at h
    injection h with h
    subst h
    exact clampedInRange _ _ _ _ _ _

/-- Witness for C1: the explicit-parameter entry point at the default
values returns a success whose vector is in range. -/
theorem c1_bound_invariant_witness :
    InRange (⟨5, 5, 5, 5, 5, 5⟩ : SlapstickParameterSet) :=
  c1_bound_invariant.2.1 "A corporate office" 5 5 5 5 5 5
    ⟨⟨5, 5, 5, 5, 5, 5⟩,
      build_enhanced_prompt "A corporate office" ⟨5, 5, 5, 5, 5, 5⟩,
      build_negative_prompt ⟨5, 5, 5, 5, 5, 5⟩⟩ rfl

/-- C2 (evaluation at the failing inputs): a `subject_type`,
`emotional_tone` or `intensity` string that matches no enum member makes
`enhance_with_intent` raise an uncaught `KeyError` instead of returning a
structured error response (`Enum[...]` raises `KeyError`, the handler
catches only `ValueError`); only an unmatched `visual_priorities` element
is answered with the structured error the claim requires. -/
theorem c2_invalid_enum_fault_evaluation :
    enhance_with_intent "A corporate office" "tower" "tense" [] "extreme" =
      ToolOutcome.raises (PyExc.keyError "TOWER") ∧
    enhance_with_intent "A corporate office" "scene" "angry" [] "extreme" =
      ToolOutcome.raises (PyExc.keyError "ANGRY") ∧
    enhance_with_intent "A corporate office" "scene" "tense" [] "maximal" =
      ToolOutcome.raises (PyExc.keyError "MAXIMAL") ∧
    enhance_with_intent "A corporate office" "scene" "tense" ["speed"] "extreme" =
      ToolOutcome.errorResp "Invalid visual priority: speed" := by
  refine ⟨?_, ?_, ?_, ?_⟩ <;> rfl

/-- C3: the scenario intent (architecture, tense, [suspense], extreme)
resolves step by step — preset ⟨7,4,6,7,6,8⟩, ×1.0 scaling unchanged,
tense deltas (tension +3 clamped to 10, physical −1, readability +1),
suspense boost (+2 to tension, clamped, no change) — to the final vector
⟨7,4,5,7,7,10⟩. -/
theorem c3_scenario_architecture_tense :
    mkParameterSet (scaledParams .architecture .extreme) = ⟨7, 4, 6, 7, 6, 8⟩ ∧
    mkParameterSet (applyToneModifiers .tense (scaledParams .architecture .extreme)) =
      ⟨7, 4, 5, 7, 7, 10⟩ ∧
    mkParameterSet (applyPriorityBoosts
      (applyToneModifiers .tense (scaledParams .architecture .extreme))
      [.suspense]) = ⟨7, 4, 5, 7, 7, 10⟩ ∧
    design_intent_to_parameters ⟨.architecture, .tense, [.suspense], .extreme⟩ =
      ⟨7, 4, 5, 7, 7, 10⟩ := by
  refine ⟨?_, ?_, ?_, ?_⟩ <;> decide

/-- C8: the intent resolver is a total function of its `DesignIntent`
argument — it always produces a vector passing `validate_parameters`, and
equal intents always yield equal parameter vectors (in this embedding the
resolver reads nothing but its argument and the immutable tables). -/
theorem c8_resolver_total_deterministic :
    (∀ d : DesignIntent, validate_parameters (design_intent_to_parameters d) = true) ∧
    (∀ d₁ d₂ : DesignIntent, d₁ = d₂ →
      design_intent_to_parameters d₁ = design_intent_to_parameters d₂) :=
  ⟨design_intent_to_parameters_validate, fun _ _ h => by rw [h]⟩

/-- Witness for C8 at the scenario intent. -/
theorem c8_resolver_total_deterministic_witness :
    validate_parameters (design_intent_to_parameters
      ⟨.architecture, .tense, [.suspense], .extreme⟩) = true ∧
    design_intent_to_parameters ⟨.architecture, .tense, [.suspense], .extreme⟩ =
      design_intent_to_parameters ⟨.architecture, .tense, [.suspense], .extreme⟩ :=
  ⟨c8_resolver_total_deterministic.1 ⟨.architecture, .tense, [.suspense], .extreme⟩,
    c8_resolver_total_deterministic.2 _ _ rfl⟩

/-- A conditionally-included singleton is a sublist of the singleton. -/
lemma ite_singleton_sublist {α : Type} {c : Prop} [Decidable c] (x : α) :
    List.Sublist (if c then [x] else []) [x] := by
  split
  · exact List.Sublist.refl _
  · exact List.nil_sublist _

/-- Membership in a conditionally-included singleton. -/
lemma mem_ite_singleton {α : Type} {c : Prop} [Decidable c] {x y : α} :
    x ∈ (if c then [y] else []) ↔ c ∧ x = y := by
  by_cases h : c
  · simp [h]
  · simp [h]

/-- The conditional negative terms always form a sublist of the six
components in gate-check order. -/
lemma negative_components_sublist (p : SlapstickParameterSet) :
    List.Sublist (negative_components p)
      [NEGATIVE_PROMPT_COMPONENTS.high_exaggeration,
       NEGATIVE_PROMPT_COMPONENTS.high_timing,
       NEGATIVE_PROMPT_COMPONENTS.high_physical,
       NEGATIVE_PROMPT_COMPONENTS.high_rule_of_three,
       NEGATIVE_PROMPT_COMPONENTS.low_readability,
       NEGATIVE_PROMPT_COMPONENTS.high_tension] := by
  unfold negative_components
  show List.Sublist _
    ((((([NEGATIVE_PROMPT_COMPONENTS.high_exaggeration] ++
      [NEGATIVE_PROMPT_COMPONENTS.high_timing]) ++
        [NEGATIVE_PROMPT_COMPONENTS.high_physical]) ++
          [NEGATIVE_PROMPT_COMPONENTS.high_rule_of_three]) ++
            [NEGATIVE_PROMPT_COMPONENTS.low_readability]) ++
              [NEGATIVE_PROMPT_COMPONENTS.high_tension])
  exact .append
    (.append
      (.append
        (.append
          (.append (ite_singleton_sublist _) (ite_singleton_sublist _))
          (ite_singleton_sublist _))
        (ite_singleton_sublist _))
      (ite_singleton_sublist _))
    (ite_singleton_sublist _)

/-- C4: for every in-range vector the negative prompt is the
comma-and-space join of the four baseline terms followed by the
conditional terms in gate-check order; the combined term list has no
duplicates (each term appears at most once); and for the all-zero vector
the output is exactly the four baseline terms. -/
theorem c4_negative_prompt_structure :
    (∀ p : SlapstickParameterSet, InRange p →
      build_negative_prompt p =
        String.intercalate ", " (base_negatives ++ negative_components p) ∧
      (base_negatives ++ negative_components p).Nodup) ∧
    build_negative_prompt ⟨0, 0, 0, 0, 0, 0⟩ =
      "blurry, low quality, distorted, ugly" := by
  refine ⟨fun p _ => ⟨?_, ?_⟩, ?_⟩
  · simp only [build_negative_prompt]
    split
    · next h =>
        rw [List.isEmpty_iff] at h
        rw [h, List.append_nil]
    · rfl
  · have hfull : (base_negatives ++
      [NEGATIVE_PROMPT_COMPONENTS.high_exaggeration,
       NEGATIVE_PROMPT_COMPONENTS.high_timing,
       NEGATIVE_PROMPT_COMPONENTS.high_physical,
       NEGATIVE_PROMPT_COMPONENTS.high_rule_of_three,
       NEGATIVE_PROMPT_COMPONENTS.low_readability,
       NEGATIVE_PROMPT_COMPONENTS.high_tension]).Nodup := by decide
    exact hfull.sublist
      (List.Sublist.append (List.Sublist.refl _) (negative_components_sublist p))
  · decide

/-- Witness for C4 at the all-gates-firing vector ⟨6,6,6,6,8,6⟩. -/
theorem c4_negative_prompt_structure_witness :
    build_negative_prompt ⟨6, 6, 6, 6, 8, 6⟩ =
      String.intercalate ", "
        (base_negatives ++ negative_components ⟨6, 6, 6, 6, 8, 6⟩) ∧
    (base_negatives ++ negative_components ⟨6, 6, 6, 6, 8, 6⟩).Nodup :=
  c4_negative_prompt_structure.1 ⟨6, 6, 6, 6, 8, 6⟩ (by decide)

/-- C6: the vector with readability 10 and all other fields 0 includes
the low-readability caution term in its negative prompt, and in general
that term is present exactly when readability ≥ 8 (the intentional
inversion: the gate fires on high readability). -/
theorem c6_readability_inversion :
    build_negative_prompt ⟨0, 0, 0, 0, 10, 0⟩ =
      "blurry, low quality, distorted, ugly, cluttered, confusing, unclear silhouette" ∧
    (∀ p : SlapstickParameterSet,
      NEGATIVE_PROMPT_COMPONENTS.low_readability ∈ negative_components p ↔
        8 ≤ p.readability) := by
  constructor
  · decide
  · intro p
    have h1 : NEGATIVE_PROMPT_COMPONENTS.low_readability ≠
        NEGATIVE_PROMPT_COMPONENTS.high_exaggeration := by decide
    have h2 : NEGATIVE_PROMPT_COMPONENTS.low_readability ≠
        NEGATIVE_PROMPT_COMPONENTS.high_timing := by decide
    have h3 : NEGATIVE_PROMPT_COMPONENTS.low_readability ≠
        NEGATIVE_PROMPT_COMPONENTS.high_physical := by decide
    have h4 : NEGATIVE_PROMPT_COMPONENTS.low_readability ≠
        NEGATIVE_PROMPT_COMPONENTS.high_rule_of_three := by decide
    have h6 : NEGATIVE_PROMPT_COMPONENTS.low_readability ≠
        NEGATIVE_PROMPT_COMPONENTS.high_tension := by decide
    simp [negative_components, List.mem_append, mem_ite_singleton, h1, h2, h3, h4, h6]

/-- Witness for C6: the inversion gate fires at readability 10. -/
theorem c6_readability_inversion_witness :
    NEGATIVE_PROMPT_COMPONENTS.low_readability ∈
      negative_components ⟨0, 0, 0, 0, 10, 0⟩ :=
  (c6_readability_inversion.2 ⟨0, 0, 0, 0, 10, 0⟩).mpr (by decide)

/-- Appending one more priority folds one more boost step. -/
lemma applyPriorityBoosts_append (ps : ParamName → ℤ) (l : List VisualPriority)
    (p : VisualPriority) :
    applyPriorityBoosts ps (l ++ [p]) =
      applyPriorityBoost (applyPriorityBoosts ps l) p := by
  unfold applyPriorityBoosts
  rw [List.foldl_append]
  rfl

/-- C7: appending a visual priority to an intent's priority list never
decreases the final value of that priority's target parameter (the +2
boost is clamped above by 10 and the final clamp is monotone). -/
theorem c7_priority_boost_monotone :
    ∀ (d : DesignIntent) (p : VisualPriority),
      (design_intent_to_parameters d).get (VISUAL_PRIORITY_BOOSTS p) ≤
      (design_intent_to_parameters
        ⟨d.subject_type, d.emotional_tone, d.visual_priorities ++ [p],
          d.intensity_level⟩).get (VISUAL_PRIORITY_BOOSTS p) := by
  intro d p
  unfold design_intent_to_parameters
  rw [mkParameterSet_get, mkParameterSet_get]
  dsimp only
  rw [applyPriorityBoosts_append]
  unfold finalClamp applyPriorityBoost clamp10
  simp only [if_pos rfl]
  omega

/-- For every value in `[0,10]` and each of the six template tables, the
selected fragment is non-empty and exactly one bucket contains the
value. -/
lemma get_template_buckets : ∀ v : ℤ, 0 ≤ v → v ≤ 10 →
    ∀ T ∈ [EXAGGERATION_TEMPLATES, TIMING_TEMPLATES, PHYSICAL_TEMPLATES,
           RULE_OF_THREE_TEMPLATES, READABILITY_TEMPLATES, TENSION_TEMPLATES],
      get_template v T ≠ "" ∧
      T.countP (fun t => decide (t.1.1 ≤ v ∧ v ≤ t.1.2)) = 1 := by
  intro v h0 h10
  interval_cases v <;> decide

/-- C5: for every base prompt and in-range vector, the enhanced prompt is
the base prompt, a comma-space, then the comma-space join of exactly six
fragments in the fixed parameter order; each fragment comes from the
unique bucket of `[9,10]`, `[6,8]`, `[3,5]`, `[0,2]` containing the
field's value (non-empty, exactly one matching bucket); and when no
fragment applies the base prompt comes back unchanged with no trailing
comma. -/
theorem c5_enhanced_prompt_structure :
    (∀ (base_prompt : String) (p : SlapstickParameterSet), InRange p →
      build_enhanced_prompt base_prompt p =
        base_prompt ++ ", " ++ String.intercalate ", "
          [get_template p.exaggeration EXAGGERATION_TEMPLATES,
           get_template p.timing TIMING_TEMPLATES,
           get_template p.physical PHYSICAL_TEMPLATES,
           get_template p.ruleOfThree RULE_OF_THREE_TEMPLATES,
           get_template p.readability READABILITY_TEMPLATES,
           get_template p.tension TENSION_TEMPLATES]) ∧
    (∀ v : ℤ, 0 ≤ v → v ≤ 10 →
      ∀ T ∈ [EXAGGERATION_TEMPLATES, TIMING_TEMPLATES, PHYSICAL_TEMPLATES,
             RULE_OF_THREE_TEMPLATES, READABILITY_TEMPLATES, TENSION_TEMPLATES],
        get_template v T ≠ "" ∧
        T.countP (fun t => decide (t.1.1 ≤ v ∧ v ≤ t.1.2)) = 1) ∧
    (∀ (base_prompt : String) (p : SlapstickParameterSet),
      get_template p.exaggeration EXAGGERATION_TEMPLATES = "" →
      get_template p.timing TIMING_TEMPLATES = "" →
      get_template p.physical PHYSICAL_TEMPLATES = "" →
      get_template p.ruleOfThree RULE_OF_THREE_TEMPLATES = "" →
      get_template p.readability READABILITY_TEMPLATES = "" →
      get_template p.tension TENSION_TEMPLATES = "" →
      build_enhanced_prompt base_prompt p = base_prompt) := by
  refine ⟨?_, get_template_buckets, ?_⟩
  · intro bp p hp
    obtain ⟨⟨h0e, h1e⟩, ⟨h0t, h1t⟩, ⟨h0p, h1p⟩, ⟨h0r, h1r⟩, ⟨h0rd, h1rd⟩,
      ⟨h0tn, h1tn⟩⟩ := hp
    have b1 : (get_template p.exaggeration EXAGGERATION_TEMPLATES != "") = true :=
      bne_iff_ne.mpr
        (get_template_buckets p.exaggeration h0e h1e EXAGGERATION_TEMPLATES (by simp)).1
    have b2 : (get_template p.timing TIMING_TEMPLATES != "") = true :=
      bne_iff_ne.mpr
        (get_template_buckets p.timing h0t h1t TIMING_TEMPLATES (by simp)).1
    have b3 : (get_template p.physical PHYSICAL_TEMPLATES != "") = true :=
      bne_iff_ne.mpr
        (get_template_buckets p.physical h0p h1p PHYSICAL_TEMPLATES (by simp)).1
    have b4 : (get_template p.ruleOfThree RULE_OF_THREE_TEMPLATES != "") = true :=
      bne_iff_ne.mpr
        (get_template_buckets p.ruleOfThree h0r h1r RULE_OF_THREE_TEMPLATES (by simp)).1
    have b5 : (get_template p.readability READABILITY_TEMPLATES != "") = true :=
      bne_iff_ne.mpr
        (get_template_buckets p.readability h0rd h1rd READABILITY_TEMPLATES (by simp)).1
    have b6 : (get_template p.tension TENSION_TEMPLATES != "") = true :=
      bne_iff_ne.mpr
        (get_template_buckets p.tension h0tn h1tn TENSION_TEMPLATES (by simp)).1
    simp only [build_enhanced_prompt, List.filter_cons, b1, b2, b3, b4, b5, b6,
      if_true, List.filter_nil, List.isEmpty_cons, Bool.false_eq_true, if_false]
  · intro bp p h1 h2 h3 h4 h5 h6
    simp only [build_enhanced_prompt, h1, h2, h3, h4, h5, h6, List.filter_cons,
      List.filter_nil]
    simp

/-- Witness for C5: the all-5 vector appends the six `[3,5]`-bucket
fragments; the uniqueness facts hold at value 5; an out-of-range vector
whose lookups all miss leaves the base prompt unchanged. -/
theorem c5_enhanced_prompt_structure_witness :
    build_enhanced_prompt "A corporate office" ⟨5, 5, 5, 5, 5, 5⟩ =
      "A corporate office" ++ ", " ++ String.intercalate ", "
        [get_template 5 EXAGGERATION_TEMPLATES,
         get_template 5 TIMING_TEMPLATES,
         get_template 5 PHYSICAL_TEMPLATES,
         get_template 5 RULE_OF_THREE_TEMPLATES,
         get_template 5 READABILITY_TEMPLATES,
         get_template 5 TENSION_TEMPLATES] ∧
    (get_template 5 EXAGGERATION_TEMPLATES ≠ "" ∧
      EXAGGERATION_TEMPLATES.countP
        (fun t => decide (t.1.1 ≤ (5 : ℤ) ∧ (5 : ℤ) ≤ t.1.2)) = 1) ∧
    build_enhanced_prompt "A plain bowl" ⟨11, 11, 11, 11, 11, 11⟩ =
      "A plain bowl" :=
  ⟨c5_enhanced_prompt_structure.1 "A corporate office" ⟨5, 5, 5, 5, 5, 5⟩ (by decide),
   c5_enhanced_prompt_structure.2.1 5 (by decide) (by decide)
     EXAGGERATION_TEMPLATES (by simp),
   c5_enhanced_prompt_structure.2.2 "A plain bowl" ⟨11, 11, 11, 11, 11, 11⟩
     rfl rfl rfl rfl rfl rfl⟩

/-- C9: the two post-clamping validation backstops are dead code — the
`Parameters must be between 0 and 10` error of `enhance_with_parameters`
is never returned for any integer inputs, and the
`Invalid parameters generated` error of `enhance_with_intent` is never
returned for any valid intent (all enum strings resolving). -/
theorem c9_validation_backstops_unreachable :
    (∀ (bp : String) (e t ph r rd tn : ℤ),
      enhance_with_parameters bp e t ph r rd tn ≠
        ToolOutcome.errorResp "Parameters must be between 0 and 10") ∧
    (∀ (bp st et : String) (vp : List String) (it : String),
      (∃ x, parseSubjectType st = some x) →
      (∃ x, parseEmotionalTone et = some x) →
      (∃ x, parseIntensityLevel it = some x) →
      (∃ l, parsePriorities vp = PriorityParse.resolved l) →
      enhance_with_intent bp st et vp it ≠
        ToolOutcome.errorResp "Invalid parameters generated") := by
  constructor
  · intro bp e t ph r rd tn h
    have hv : (⟨clamp10 e, clamp10 t, clamp10 ph, clamp10 r, clamp10 rd,
        clamp10 tn⟩ : SlapstickParameterSet).validate = true :=
      (validate_eq_true_iff _).mpr (clampedInRange e t ph r rd tn)
    simp only [enhance_with_parameters, hv] at h
    exact ToolOutcome.noConfusion h
  · rintro bp st et vp it ⟨s, hs⟩ ⟨e, he⟩ ⟨i, hi⟩ ⟨l, hl⟩ h
    simp only [enhance_with_intent, hs, he, hi, hl,
      design_intent_to_parameters_validate] at h
    exact ToolOutcome.noConfusion h

/-- Witness for C9 at concrete valid inputs. -/
theorem c9_validation_backstops_unreachable_witness :
    enhance_with_parameters "A corporate office" 5 5 5 5 5 5 ≠
      ToolOutcome.errorResp "Parameters must be between 0 and 10" ∧
    enhance_with_intent "A corporate office" "scene" "playful" [] "moderate" ≠
      ToolOutcome.errorResp "Invalid parameters generated" :=
  ⟨c9_validation_backstops_unreachable.1 "A corporate office" 5 5 5 5 5 5,
    c9_validation_backstops_unreachable.2 "A corporate office" "scene" "playful"
      [] "moderate" ⟨.scene, rfl⟩ ⟨.playful, rfl⟩ ⟨.moderate, rfl⟩ ⟨[], rfl⟩⟩

/-- C10: the scaling step rounds each preset field times the exact
multiplier with Python's round-half-to-even; over the shipped presets and
multipliers this agrees with round-half-away-from-zero on every field
(the only tie, 5 × 0.3 = 1.5, rounds to 2 under both rules), so swapping
the tie rule changes no resolver output. -/
theorem c10_scaling_tie_rule_immaterial :
    (∀ (s : SubjectType) (i : IntensityLevel) (n : ParamName),
      scaledParams s i n = scaledParamsAway s i n) ∧
    (∀ d : DesignIntent,
      design_intent_to_parameters d = design_intent_to_parameters_away d) := by
  have agree : ∀ (s : SubjectType) (i : IntensityLevel) (n : ParamName),
      scaledParams s i n = scaledParamsAway s i n := by decide
  refine ⟨agree, fun d => ?_⟩
  unfold design_intent_to_parameters design_intent_to_parameters_away
  rw [show scaledParams d.subject_type d.intensity_level =
      scaledParamsAway d.subject_type d.intensity_level from
    funext fun n => agree d.subject_type d.intensity_level n]
